import Mathlib

/-!
Shallow embedding of the numerical core of `src/app.py` (a 2-D shot planner):
the physical constants, the drag-free required-speed model
(`get_speed_func_squared`), the angular-speed-space solver
(`get_ang_speed_space`), the drag flight simulator with its three terminal
events (`flight_model`, `hit_ground`, `hit_rim`, `passed_rim`, `try_shot`),
and the heatmap field aggregator (`generate_heatmap`).

The scipy kernels the source calls are modelled explicitly:
`fsolve(f, seed)[0]` and `quad(f, a, b)[0]` enter as function parameters
(`rootfind`, `quadrature`) since any value they produce is consumed the same
way by the surrounding code, and `solve_ivp`'s stepping is modelled as an
explicit step loop seeded with the initial state, with the same time span
(0, 5), step cap 0.05 and terminal-event semantics.  Grid construction
(`numpy.arange`) is modelled over exact rationals.
-/

namespace ShotPlanner

/-- Embedding of `numpy.arange start stop step` over exact rationals:
the list `start, start + step, ...` with `ceil ((stop - start) / step)`
entries (none when that count is nonpositive). -/
def arange (start stop step : ℚ) : List ℚ :=
  (List.range (Int.toNat ⌈(stop - start) / step⌉)).map fun i => start + step * (i : ℚ)

/-- The default heatmap x grid, `np.arange(-6, -1, 0.2)` (src/app.py line 154). -/
def heatmap_x_range : List ℚ := arange (-6) (-1) 0.2

/-- The default heatmap y grid, `np.arange(0.2, 1.25, 0.2)` (src/app.py line 155). -/
def heatmap_y_range : List ℚ := arange 0.2 1.25 0.2

noncomputable section

/-- Gravity, src/app.py line 9. -/
def g : ℝ := 9.81

/-- Full aperture width, src/app.py line 10. -/
def rim_width : ℝ := 1.04

/-- Aperture height, src/app.py line 11. -/
def rim_height : ℝ := 1.83

/-- Projectile radius, src/app.py line 12. -/
def cargo_radius : ℝ := 0.15 / 2

/-- Drag coefficient, src/app.py line 13. -/
def drag_coeff : ℝ := 0.23

/-- Projectile mass, src/app.py line 14. -/
def cargo_mass : ℝ := 0.21

/-- Air density, src/app.py line 15. -/
def air_density : ℝ := 1.225

/-- Projectile frontal area, src/app.py line 16. -/
def cargo_area : ℝ := Real.pi * cargo_radius ^ 2

/-- Degrees to radians, as numpy's `radians`. -/
def radians (d : ℝ) : ℝ := d * (Real.pi / 180)

/-- Radians to degrees, as numpy's `degrees`. -/
def degrees (r : ℝ) : ℝ := r * (180 / Real.pi)

/-- Embedding of `np.linspace a b n`: `n` equally spaced points from `a` to `b`,
both endpoints included. -/
def linspace (a b : ℝ) (n : ℕ) : List ℝ :=
  (List.range n).map fun i : ℕ => a + (b - a) * (i : ℝ) / ((n : ℝ) - 1)

/-- Embedding of `numpy.arctan2 y x` (four-quadrant arctangent). -/
def arctan2 (y x : ℝ) : ℝ :=
  if 0 < x then Real.arctan (y / x)
  else if x < 0 then
    if 0 ≤ y then Real.arctan (y / x) + Real.pi else Real.arctan (y / x) - Real.pi
  else if 0 < y then Real.pi / 2
  else if y < 0 then -(Real.pi / 2)
  else 0

/-- Embedding of `get_speed_func_squared` (src/app.py lines 19-24): the
squared launch speed, under gravity only, needed to pass through `endpt`
when launching from `startpt` at angle `a`. -/
def get_speed_func_squared (startpt endpt : ℝ × ℝ) : ℝ → ℝ :=
  fun a =>
    (0.5 * g / (startpt.2 - endpt.2 + (endpt.1 - startpt.1) * Real.tan a)) *
      ((endpt.1 - startpt.1) / Real.cos a) ^ 2

/-- Result record of `get_ang_speed_space` (src/app.py lines 45-50). -/
structure AngSpeedSpaceResult where
  area : ℝ
  angles : List ℝ
  lower_bound : List ℝ
  upper_bound : List ℝ

/-- Embedding of `get_ang_speed_space` (src/app.py lines 27-50), parameterized
by the two scipy kernels the source uses: `rootfind f seed` stands for
`fsolve(f, seed)[0]` (fsolve always returns its final iterate, converged or
not, and the source discards all convergence information) and
`quadrature f a b` stands for `quad(f, a, b)[0]`.  `Real.sqrt` is 0 on
negative input where numpy's `sqrt` is NaN; no claim settled here depends on
the sampled curve values at such points. -/
def get_ang_speed_space (rootfind : (ℝ → ℝ) → ℝ → ℝ)
    (quadrature : (ℝ → ℝ) → ℝ → ℝ → ℝ) (xpos ypos : ℝ) : AngSpeedSpaceResult :=
  let f_far_squared := get_speed_func_squared (xpos, ypos) (rim_width / 2, rim_height)
  let f_near_squared := get_speed_func_squared (xpos, ypos) (-rim_width / 2, rim_height)
  let f_squared_diff := fun a => f_far_squared a - f_near_squared a
  let intersection := rootfind f_squared_diff (radians 85)
  let ang_lower_bound := max intersection (radians 5)
  let ang_upper_bound := radians 85
  let f_far := fun a => Real.sqrt (f_far_squared a)
  let f_near := fun a => Real.sqrt (f_near_squared a)
  let f_diff := fun a => f_far a - f_near a
  let area := quadrature f_diff ang_lower_bound ang_upper_bound
  let angles := linspace (degrees ang_lower_bound) (degrees ang_upper_bound) 50
  { area := area
    angles := angles
    lower_bound := angles.map fun d => f_near (radians d)
    upper_bound := angles.map fun d => f_far (radians d) }

/-- Simulation state `(x, vx, y, vy)`, the order `flight_model` unpacks. -/
abbrev State := ℝ × ℝ × ℝ × ℝ

/-- Embedding of `flight_model` (src/app.py lines 53-71).  The source divides
by `v = sqrt(vx**2 + vy**2)` unconditionally; when `v = 0` the quotients
`vy / v` and `vx / v` are `0 / 0`, which is NaN in IEEE arithmetic, so the
derivative is not a finite real vector.  `none` marks exactly that case. -/
def flight_model : State → Option State
  | (_x, vx, _y, vy) =>
    let v_squared := vx ^ 2 + vy ^ 2
    let v := Real.sqrt v_squared
    if v = 0 then none
    else
      let sin_component := vy / v
      let cos_component := vx / v
      let Fd := 0.5 * air_density * cargo_area * drag_coeff * v_squared
      let Fx := -Fd * cos_component
      let Fy := -Fd * sin_component - cargo_mass * g
      some (vx, Fx / cargo_mass, vy, Fy / cargo_mass)

/-- Embedding of the `hit_ground` event (src/app.py lines 74-76): height above
the floor. -/
def hit_ground : State → ℝ
  | (_x, _vx, y, _vy) => y

/-- Embedding of the `hit_rim` event (src/app.py lines 82-87): the source's
exact heuristic `min(x - -rim_width / 2, -(y - rim_height)) + cargo_radius`. -/
def hit_rim : State → ℝ
  | (x, _vx, y, _vy) => min (x - -rim_width / 2) (-(y - rim_height)) + cargo_radius

/-- Embedding of the `passed_rim` event (src/app.py lines 93-95): signed
distance past the far aperture edge. -/
def passed_rim : State → ℝ
  | (x, _vx, _y, _vy) => x - rim_width / 2

/-- One explicit integration step of size `h` on the flight model; `none`
when the model's derivative is not finite (NaN). -/
def euler_step (h : ℝ) (s : State) : Option State :=
  (flight_model s).map fun d =>
    (s.1 + h * d.1, s.2.1 + h * d.2.1, s.2.2.1 + h * d.2.2.1, s.2.2.2 + h * d.2.2.2)

/-- A step from `s` to s' is terminal when one of the three event functions
crosses (or lands on) zero across the step, modelling `solve_ivp`'s three
terminal events (src/app.py lines 79, 90, 98 and 107). -/
def step_terminal (s s' : State) : Prop :=
  hit_ground s * hit_ground s' ≤ 0 ∨ hit_rim s * hit_rim s' ≤ 0 ∨
    passed_rim s * passed_rim s' ≤ 0

instance (s s' : State) : Decidable (step_terminal s s') := by
  unfold step_terminal; infer_instance

/-- The recorded states after the initial one: up to `n` explicit steps of
size `h`, stopping at a terminal event or when the derivative turns
non-finite. -/
def integrate (h : ℝ) : ℕ → State → List State
  | 0, _ => []
  | n + 1, s =>
    match euler_step h s with
    | none => []
    | some s' => if step_terminal s s' then [s'] else s' :: integrate h n s'

/-- Result record of `try_shot` (src/app.py lines 117-121). -/
structure TrajectoryResult where
  result : ℤ
  x : List ℝ
  y : List ℝ

/-- Embedding of `try_shot` (src/app.py lines 101-121): `t_span = (0, 5)` with
`max_step = 0.05` gives 100 recorded steps; `solve_ivp` records the initial
state as the first sample; the outcome code is computed from the last
recorded x exactly as on lines 111-115. -/
def try_shot (s0 : State) : TrajectoryResult :=
  let states := s0 :: integrate 0.05 100 s0
  let xs := states.map fun st => st.1
  let ys := states.map fun st => st.2.2.1
  let xf := xs.getLastD 0
  { result :=
      if xf < -rim_width / 2 then -1
      else if xf > rim_width / 2 - cargo_radius then 1
      else 0
    x := xs
    y := ys }

/-- Result record of `generate_heatmap` (src/app.py lines 167-171). -/
structure Field where
  x_range : List ℚ
  y_range : List ℚ
  area_grid : List (List ℝ)

/-- Embedding of `generate_heatmap` (src/app.py lines 152-171), parameterized
by the same scipy kernels as `get_ang_speed_space`: every grid cell is the
solver's area scaled by `arctan2 rim_width |x|`. -/
def generate_heatmap (rootfind : (ℝ → ℝ) → ℝ → ℝ)
    (quadrature : (ℝ → ℝ) → ℝ → ℝ → ℝ) : Field :=
  { x_range := heatmap_x_range
    y_range := heatmap_y_range
    area_grid := heatmap_x_range.map fun xi : ℚ =>
      heatmap_y_range.map fun yi : ℚ =>
        (get_ang_speed_space rootfind quadrature (xi : ℝ) (yi : ℝ)).area *
          arctan2 rim_width |(xi : ℝ)| }

end

/-! Helper lemmas (not tied to any single claim). -/

theorem classify_cases (xf : ℝ) :
    ((if xf < -rim_width / 2 then (-1 : ℤ)
      else if xf > rim_width / 2 - cargo_radius then 1 else 0) = -1 ↔
      xf < -rim_width / 2) ∧
    ((if xf < -rim_width / 2 then (-1 : ℤ)
      else if xf > rim_width / 2 - cargo_radius then 1 else 0) = 1 ↔
      rim_width / 2 - cargo_radius < xf) ∧
    ((if xf < -rim_width / 2 then (-1 : ℤ)
      else if xf > rim_width / 2 - cargo_radius then 1 else 0) = 0 ↔
      -rim_width / 2 ≤ xf ∧ xf ≤ rim_width / 2 - cargo_radius) := by
  have hlt : -rim_width / 2 < rim_width / 2 - cargo_radius := by
    norm_num [rim_width, cargo_radius]
  by_cases h1 : xf < -rim_width / 2
  · refine ⟨by simp [h1], ?_, ?_⟩
    · simp only [if_pos h1]
      exact ⟨fun hc => absurd hc (by decide), fun hb => absurd hb (by linarith)⟩
    · simp only [if_pos h1]
      exact ⟨fun hc => absurd hc (by decide), fun hb => absurd h1 (by linarith [hb.1])⟩
  · by_cases h2 : xf > rim_width / 2 - cargo_radius
    · refine ⟨?_, ?_, ?_⟩ <;> simp only [if_neg h1, if_pos h2]
      · exact ⟨fun hc => absurd hc (by decide), fun hb => absurd hb h1⟩
      · exact ⟨fun _ => h2, fun _ => trivial⟩
      · exact ⟨fun hc => absurd hc (by decide), fun hb => absurd h2 (by linarith [hb.2])⟩
    · refine ⟨?_, ?_, ?_⟩ <;> simp only [if_neg h1, if_neg h2]
      · exact ⟨fun hc => absurd hc (by decide), fun hb => absurd hb h1⟩
      · exact ⟨fun hc => absurd hc (by decide), fun hb => absurd hb h2⟩
      · exact ⟨fun _ => ⟨le_of_not_lt h1, le_of_not_lt h2⟩, fun _ => trivial⟩

theorem radians85_lt_two : radians 85 < 2 := by
  have hpi := Real.pi_lt_d2
  simp only [radians]
  linarith

theorem list_getD_map_of_lt {α β : Type _} (f : α → β) (d : α) (e : β) :
    ∀ (l : List α) (i : ℕ), i < l.length → (l.map f).getD i e = f (l.getD i d) := by
  intro l i h
  rw [List.getD_eq_getElem (l.map f) e (by simpa using h), List.getD_eq_getElem l d h]
  simp

theorem linspace_head (a b : ℝ) (m : ℕ) : (linspace a b (m + 1)).head? = some a := by
  unfold linspace
  rw [List.range_succ_eq_map]
  simp

theorem linspace_50_getD_49 (a b : ℝ) : (linspace a b 50).getD 49 0 = b := by
  unfold linspace
  rw [list_getD_map_of_lt _ 0 0 (List.range 50) 49 (by simp)]
  show a + (b - a) * (((List.range 50).getD 49 0 : ℕ) : ℝ) / (((50 : ℕ) : ℝ) - 1) = b
  rw [show (List.range 50).getD 49 0 = 49 from rfl]
  push_cast
  rw [show ((50 : ℝ) - 1) = 49 from by norm_num, mul_div_assoc,
    show (49 : ℝ) / 49 = 1 from by norm_num, mul_one]
  ring

theorem heatmap_x_range_eq :
    heatmap_x_range =
      [-6, -5.8, -5.6, -5.4, -5.2, -5, -4.8, -4.6, -4.4, -4.2, -4, -3.8, -3.6,
        -3.4, -3.2, -3, -2.8, -2.6, -2.4, -2.2, -2, -1.8, -1.6, -1.4, -1.2] := by
  unfold heatmap_x_range arange
  rw [show ((-1 : ℚ) - -6) / 0.2 = 25 from by norm_num,
    show Int.toNat ⌈(25 : ℚ)⌉ = 25 from by
      rw [show ⌈(25 : ℚ)⌉ = (25 : ℤ) from by norm_num]
      rfl,
    show List.range 25 = [0, 1, 2, 3, 4, 5, 6, 7, 8, 9, 10, 11, 12, 13, 14, 15,
      16, 17, 18, 19, 20, 21, 22, 23, 24] from rfl]
  norm_num

theorem heatmap_y_range_eq :
    heatmap_y_range = [0.2, 0.4, 0.6, 0.8, 1, 1.2] := by
  unfold heatmap_y_range arange
  rw [show ((1.25 : ℚ) - 0.2) / 0.2 = 21 / 4 from by norm_num,
    show Int.toNat ⌈(21 / 4 : ℚ)⌉ = 6 from by
      rw [show ⌈(21 / 4 : ℚ)⌉ = (6 : ℤ) from by
        rw [Int.ceil_eq_iff]
        norm_num]
      rfl,
    show List.range 6 = [0, 1, 2, 3, 4, 5] from rfl]
  norm_num

/-! Claim theorems. -/

/-- Claim C1: for every initial state, `try_shot`'s outcome code is determined
solely by the final recorded x of the path: it is -1 exactly when that x is
below `-rim_width / 2`, it is 1 exactly when that x is strictly above
`rim_width / 2 - cargo_radius` (so a final x exactly at that bound classifies
as 0), and it is 0 otherwise. -/
theorem try_shot_outcome_classification (s0 : State) :
    ((try_shot s0).result = -1 ↔ (try_shot s0).x.getLastD 0 < -rim_width / 2) ∧
    ((try_shot s0).result = 1 ↔
      rim_width / 2 - cargo_radius < (try_shot s0).x.getLastD 0) ∧
    ((try_shot s0).result = 0 ↔
      -rim_width / 2 ≤ (try_shot s0).x.getLastD 0 ∧
        (try_shot s0).x.getLastD 0 ≤ rim_width / 2 - cargo_radius) := by
  have hres : (try_shot s0).result =
      if (try_shot s0).x.getLastD 0 < -rim_width / 2 then (-1 : ℤ)
      else if (try_shot s0).x.getLastD 0 > rim_width / 2 - cargo_radius then 1
      else 0 := rfl
  rw [hres]
  exact classify_cases ((try_shot s0).x.getLastD 0)

/-- Claim C10: for every initial state, the x and y sequences returned by
`try_shot` have equal length, are non-empty, and begin with the initial
x-position and y-position of the launch state. -/
theorem try_shot_path_starts_at_launch (s0 : State) :
    (try_shot s0).x.length = (try_shot s0).y.length ∧
    (try_shot s0).x ≠ [] ∧
    (try_shot s0).x.head? = some s0.1 ∧
    (try_shot s0).y.head? = some s0.2.2.1 := by
  refine ⟨?_, ?_, ?_, ?_⟩ <;> simp [try_shot]

/-- Claim C4 (refuted, code bug): the source's `flight_model` has no zero-speed
guard: for any position, a state with `vx = 0` and `vy = 0` makes
`v = sqrt(vx**2 + vy**2) = 0` and the unit-velocity quotients `vx / v`,
`vy / v` are 0/0 (NaN), so the equations of motion produce no finite
derivative (`none` in this embedding) and the NaN would propagate into the
integrated path. -/
theorem flight_model_zero_speed_not_guarded (x y : ℝ) :
    flight_model (x, 0, y, 0) = none := by
  simp [flight_model]

/-- Claim C7: the rim-collision event function is exactly the heuristic
`min (x - -(rim_width / 2)) (rim_height - y) + cargo_radius` — the minimum of
the horizontal distance past the near aperture edge and the vertical distance
below the aperture height, plus the projectile radius — and it is not a
Euclidean distance to the rim: at a point 1 m left of and 10 m below the near
rim corner it differs from the corner's Euclidean distance plus the radius. -/
theorem hit_rim_exact_heuristic :
    (∀ x vx y vy : ℝ,
        hit_rim (x, vx, y, vy) =
          min (x - -(rim_width / 2)) (rim_height - y) + cargo_radius) ∧
    hit_rim (-rim_width / 2 - 1, 0, rim_height - 10, 0) ≠
      Real.sqrt (1 ^ 2 + 10 ^ 2) + cargo_radius := by
  constructor
  · intro x vx y vy
    simp [hit_rim, neg_sub, neg_div]
  · have h1 : hit_rim (-rim_width / 2 - 1, 0, rim_height - 10, 0) =
        -1 + cargo_radius := by
      have hx : (-rim_width / 2 - 1) - -rim_width / 2 = (-1 : ℝ) := by ring
      have hy : -((rim_height - 10) - rim_height) = (10 : ℝ) := by ring
      simp only [hit_rim, hx, hy]
      rw [min_eq_left (by norm_num)]
    intro heq
    rw [h1] at heq
    have h2 := Real.sqrt_nonneg ((1 : ℝ) ^ 2 + 10 ^ 2)
    have h3 : (-1 : ℝ) = Real.sqrt (1 ^ 2 + 10 ^ 2) := by linarith
    linarith

/-- Claim C2: for every start point, target point and angle with nonzero
cosine and nonzero denominator, `get_speed_func_squared` evaluates to exactly
`g / 2 * ((x1 - x0) / cos a) ^ 2 / (y0 - y1 + (x1 - x0) * tan a)`. -/
theorem get_speed_func_squared_closed_form (x0 y0 x1 y1 a : ℝ)
    (hcos : Real.cos a ≠ 0) (hden : y0 - y1 + (x1 - x0) * Real.tan a ≠ 0) :
    get_speed_func_squared (x0, y0) (x1, y1) a =
      g / 2 * ((x1 - x0) / Real.cos a) ^ 2 / (y0 - y1 + (x1 - x0) * Real.tan a) := by
  show 0.5 * g / (y0 - y1 + (x1 - x0) * Real.tan a) * ((x1 - x0) / Real.cos a) ^ 2 = _
  ring

/-- Claim C2 witness: the closed form holds at the concrete input
start (0, 1), target (1, 0), angle 0, where both side conditions hold. -/
theorem get_speed_func_squared_closed_form_witness :
    Real.cos 0 ≠ 0 ∧ ((1 : ℝ) - 0 + (1 - 0) * Real.tan 0) ≠ 0 ∧
    get_speed_func_squared (0, 1) (1, 0) 0 =
      g / 2 * ((1 - 0) / Real.cos 0) ^ 2 / (1 - 0 + (1 - 0) * Real.tan 0) :=
  ⟨by norm_num [Real.cos_zero], by norm_num [Real.tan_zero],
    get_speed_func_squared_closed_form 0 1 1 0 0 (by norm_num [Real.cos_zero])
      (by norm_num [Real.tan_zero])⟩

/-- Claim C3: `get_ang_speed_space` builds its angle window as
`lower = max intersection (radians 5)` and `upper = radians 85`, where
`intersection` is the root-finder's output seeded at `radians 85` on the
difference of the two required-speed-squared curves targeting
`(rim_width / 2, rim_height)` and `(-rim_width / 2, rim_height)`; the area is
the quadrature of the speed-window width over that window and the 50 sampled
angles run from the lower to the upper bound in degrees. -/
theorem get_ang_speed_space_window_structure
    (rf : (ℝ → ℝ) → ℝ → ℝ) (qd : (ℝ → ℝ) → ℝ → ℝ → ℝ) (x y : ℝ) :
    (get_ang_speed_space rf qd x y).area =
      qd
        (fun a =>
          Real.sqrt (get_speed_func_squared (x, y) (rim_width / 2, rim_height) a) -
            Real.sqrt (get_speed_func_squared (x, y) (-rim_width / 2, rim_height) a))
        (max (rf (fun a =>
            get_speed_func_squared (x, y) (rim_width / 2, rim_height) a -
              get_speed_func_squared (x, y) (-rim_width / 2, rim_height) a)
          (radians 85)) (radians 5))
        (radians 85) ∧
    (get_ang_speed_space rf qd x y).angles =
      linspace
        (degrees (max (rf (fun a =>
            get_speed_func_squared (x, y) (rim_width / 2, rim_height) a -
              get_speed_func_squared (x, y) (-rim_width / 2, rim_height) a)
          (radians 85)) (radians 5)))
        (degrees (radians 85)) 50 ∧
    (get_ang_speed_space rf qd x y).angles.head? =
      some (degrees (max (rf (fun a =>
            get_speed_func_squared (x, y) (rim_width / 2, rim_height) a -
              get_speed_func_squared (x, y) (-rim_width / 2, rim_height) a)
          (radians 85)) (radians 5))) ∧
    (get_ang_speed_space rf qd x y).angles.getD 49 0 = degrees (radians 85) := by
  refine ⟨rfl, rfl, ?_, ?_⟩
  · exact linspace_head _ _ 49
  · exact linspace_50_getD_49 _ _

/-- Claim C6 counterexample: from the centered launch point (0, 1) the far and
near required-speed curves are not identical: at angle pi / 3 the far squared
speed is positive while the near squared speed is negative, so both the
squared curves and the sampled speed curves (their square roots) differ. -/
theorem near_far_curves_differ_at_center :
    get_speed_func_squared (0, 1) (rim_width / 2, rim_height) (Real.pi / 3) ≠
      get_speed_func_squared (0, 1) (-rim_width / 2, rim_height) (Real.pi / 3) ∧
    Real.sqrt (get_speed_func_squared (0, 1) (rim_width / 2, rim_height) (Real.pi / 3)) ≠
      Real.sqrt (get_speed_func_squared (0, 1) (-rim_width / 2, rim_height) (Real.pi / 3)) := by
  have hs3 : Real.sqrt 3 ^ 2 = 3 := Real.sq_sqrt (by norm_num)
  have hs3pos : (0 : ℝ) ≤ Real.sqrt 3 := Real.sqrt_nonneg 3
  have h17 : (1.7 : ℝ) < Real.sqrt 3 := by nlinarith
  have htan : Real.tan (Real.pi / 3) = Real.sqrt 3 := by
    rw [Real.tan_eq_sin_div_cos, Real.sin_pi_div_three, Real.cos_pi_div_three]
    ring
  have hfar_eq : get_speed_func_squared (0, 1) (rim_width / 2, rim_height) (Real.pi / 3) =
      0.5 * g / (1 - rim_height + (rim_width / 2 - 0) * Real.tan (Real.pi / 3)) *
        ((rim_width / 2 - 0) / Real.cos (Real.pi / 3)) ^ 2 := rfl
  have hnear_eq : get_speed_func_squared (0, 1) (-rim_width / 2, rim_height) (Real.pi / 3) =
      0.5 * g / (1 - rim_height + (-rim_width / 2 - 0) * Real.tan (Real.pi / 3)) *
        ((-rim_width / 2 - 0) / Real.cos (Real.pi / 3)) ^ 2 := rfl
  have hF : 0 < get_speed_func_squared (0, 1) (rim_width / 2, rim_height) (Real.pi / 3) := by
    rw [hfar_eq, htan, Real.cos_pi_div_three]
    simp only [g, rim_width, rim_height]
    have hden : (0 : ℝ) < 1 - 1.83 + (1.04 / 2 - 0) * Real.sqrt 3 := by nlinarith
    exact mul_pos (div_pos (by norm_num) hden) (by norm_num)
  have hN : get_speed_func_squared (0, 1) (-rim_width / 2, rim_height) (Real.pi / 3) < 0 := by
    rw [hnear_eq, htan, Real.cos_pi_div_three]
    simp only [g, rim_width, rim_height]
    have hden : (1 : ℝ) - 1.83 + (-1.04 / 2 - 0) * Real.sqrt 3 < 0 := by nlinarith
    exact mul_neg_of_neg_of_pos (div_neg_of_pos_of_neg (by norm_num) hden) (by norm_num)
  constructor
  · intro h
    rw [h] at hF
    linarith
  · intro h
    have h1 : 0 < Real.sqrt
        (get_speed_func_squared (0, 1) (rim_width / 2, rim_height) (Real.pi / 3)) :=
      Real.sqrt_pos.mpr hF
    have h2 : Real.sqrt
        (get_speed_func_squared (0, 1) (-rim_width / 2, rim_height) (Real.pi / 3)) = 0 :=
      Real.sqrt_eq_zero'.mpr (le_of_lt hN)
    rw [h, h2] at h1
    exact lt_irrefl 0 h1

/-- Claim C6 amended: for a launch point with x = 0 the near and far
required-speed curves are not identical but are mirror images in the angle:
the far curve at angle -a equals the near curve at angle a, for every launch
height and every angle. -/
theorem near_far_curves_mirror_at_center (y0 a : ℝ) :
    get_speed_func_squared (0, y0) (rim_width / 2, rim_height) (-a) =
      get_speed_func_squared (0, y0) (-rim_width / 2, rim_height) a := by
  show 0.5 * g / (y0 - rim_height + (rim_width / 2 - 0) * Real.tan (-a)) *
      ((rim_width / 2 - 0) / Real.cos (-a)) ^ 2 =
    0.5 * g / (y0 - rim_height + (-rim_width / 2 - 0) * Real.tan a) *
      ((-rim_width / 2 - 0) / Real.cos a) ^ 2
  rw [Real.tan_neg, Real.cos_neg]
  ring

/-- Claim C5 amended: `get_ang_speed_space` has no failure path: even when the
clamped angle window is inverted (lower bound above the 85-degree upper bound,
as when the root search's final iterate lies above 85 degrees), it returns the
ordinary result record, passing the inverted bounds straight to the quadrature
kernel and sampling 50 angles; no tagged domain error exists in the source. -/
theorem get_ang_speed_space_no_failure_path
    (rf : (ℝ → ℝ) → ℝ → ℝ) (qd : (ℝ → ℝ) → ℝ → ℝ → ℝ) (x y : ℝ)
    (hinv : radians 85 < max (rf (fun a =>
        get_speed_func_squared (x, y) (rim_width / 2, rim_height) a -
          get_speed_func_squared (x, y) (-rim_width / 2, rim_height) a) (radians 85))
      (radians 5)) :
    (get_ang_speed_space rf qd x y).area =
      qd (fun a =>
          Real.sqrt (get_speed_func_squared (x, y) (rim_width / 2, rim_height) a) -
            Real.sqrt (get_speed_func_squared (x, y) (-rim_width / 2, rim_height) a))
        (max (rf (fun a =>
            get_speed_func_squared (x, y) (rim_width / 2, rim_height) a -
              get_speed_func_squared (x, y) (-rim_width / 2, rim_height) a) (radians 85))
          (radians 5))
        (radians 85) ∧
    (get_ang_speed_space rf qd x y).angles.length = 50 := by
  refine ⟨rfl, ?_⟩
  show (linspace _ _ 50).length = 50
  simp [linspace]

/-- Claim C5 witness: with a root-finder outcome of 2 radians the window at
launch point (-3, 1) is inverted (its lower bound exceeds radians 85), the
hypothesis of the no-failure theorem holds, and the solver still produces the
quadrature value (0 for the zero quadrature kernel) as its area. -/
theorem get_ang_speed_space_no_failure_path_witness :
    radians 85 < max (2 : ℝ) (radians 5) ∧
    (get_ang_speed_space (fun _ _ => 2) (fun _ _ _ => 0) (-3) 1).area = 0 := by
  have hmax : radians 85 < max (2 : ℝ) (radians 5) :=
    lt_max_of_lt_left radians85_lt_two
  exact ⟨hmax,
    (get_ang_speed_space_no_failure_path (fun _ _ => 2) (fun _ _ _ => 0) (-3) 1 hmax).1⟩

/-- Claim C5 counterexample: with a root-finder outcome of 2 radians at launch
point (-3, 1) the clamped window has lower bound 2 above the upper bound
radians 85, yet `get_ang_speed_space` returns a normal result record — area
equal to the quadrature kernel's value on the inverted bounds and 50 sampled
angles — rather than any tagged domain-error failure. -/
theorem get_ang_speed_space_silent_on_inverted_window :
    radians 85 < max (2 : ℝ) (radians 5) ∧
    (get_ang_speed_space (fun _ _ => 2) (fun _ _ _ => 0) (-3) 1).area = 0 ∧
    (get_ang_speed_space (fun _ _ => 2) (fun _ _ _ => 0) (-3) 1).angles.length = 50 := by
  refine ⟨lt_max_of_lt_left radians85_lt_two, rfl, ?_⟩
  show (linspace _ _ 50).length = 50
  simp [linspace]

/-- Claim C8 amended: the default heatmap grid's x_range is the literal
sequence -6, -5.8, ..., -1.2 (step 0.2 from -6, exclusive of -1); its y_range
is the literal sequence 0.2, 0.4, ..., 1.2 (step 0.2 from 0.2, exclusive of
1.25 — not ending at the claimed 1.05); and for any kernels the area_grid has
exactly one row per x_range entry, each row holding exactly one entry per
y_range entry. -/
theorem generate_heatmap_grid_shape :
    heatmap_x_range =
      [-6, -5.8, -5.6, -5.4, -5.2, -5, -4.8, -4.6, -4.4, -4.2, -4, -3.8, -3.6,
        -3.4, -3.2, -3, -2.8, -2.6, -2.4, -2.2, -2, -1.8, -1.6, -1.4, -1.2] ∧
    heatmap_y_range = [0.2, 0.4, 0.6, 0.8, 1, 1.2] ∧
    ∀ (rf : (ℝ → ℝ) → ℝ → ℝ) (qd : (ℝ → ℝ) → ℝ → ℝ → ℝ),
      (generate_heatmap rf qd).area_grid.map List.length = List.replicate 25 6 := by
  refine ⟨heatmap_x_range_eq, heatmap_y_range_eq, fun rf qd => ?_⟩
  show (heatmap_x_range.map fun xi : ℚ => heatmap_y_range.map fun yi : ℚ =>
      (get_ang_speed_space rf qd (xi : ℝ) (yi : ℝ)).area *
        arctan2 rim_width |(xi : ℝ)|).map List.length = List.replicate 25 6
  rw [List.map_map]
  have hconst : (List.length ∘ fun xi : ℚ => heatmap_y_range.map fun yi : ℚ =>
      (get_ang_speed_space rf qd (xi : ℝ) (yi : ℝ)).area *
        arctan2 rim_width |(xi : ℝ)|) = fun _ : ℚ => (6 : ℕ) := by
    funext xi
    show (heatmap_y_range.map _).length = 6
    rw [List.length_map, heatmap_y_range_eq]
    rfl
  rw [hconst, List.map_const']
  rw [show heatmap_x_range.length = 25 from by rw [heatmap_x_range_eq]; rfl]

/-- Claim C8 counterexample: the claimed literal y_range ending at 1.05 is
wrong — 1.05 never occurs in the default y grid, whose last entry is 1.2. -/
theorem heatmap_y_range_not_ending_at_1p05 :
    (1.05 : ℚ) ∉ heatmap_y_range ∧ heatmap_y_range.getLast? = some 1.2 := by
  rw [heatmap_y_range_eq]
  constructor
  · norm_num
  · rfl

/-- Claim C9: every cell (i, j) of the heatmap's area_grid equals the area
produced by `get_ang_speed_space` at launch point (x_range i, y_range j)
multiplied by the positional weight `arctan2 rim_width |x_range i|`, where
`rim_width` is the full aperture width. -/
theorem generate_heatmap_cell_value
    (rf : (ℝ → ℝ) → ℝ → ℝ) (qd : (ℝ → ℝ) → ℝ → ℝ → ℝ) (i j : ℕ)
    (hi : i < 25) (hj : j < 6) :
    ((generate_heatmap rf qd).area_grid.getD i []).getD j 0 =
      (get_ang_speed_space rf qd (heatmap_x_range.getD i 0 : ℝ)
          (heatmap_y_range.getD j 0 : ℝ)).area *
        arctan2 rim_width |(heatmap_x_range.getD i 0 : ℝ)| := by
  have hi' : i < heatmap_x_range.length := by
    rw [show heatmap_x_range.length = 25 from by rw [heatmap_x_range_eq]; rfl]; exact hi
  have hj' : j < heatmap_y_range.length := by
    rw [show heatmap_y_range.length = 6 from by rw [heatmap_y_range_eq]; rfl]; exact hj
  show ((heatmap_x_range.map fun xi : ℚ => heatmap_y_range.map fun yi : ℚ =>
      (get_ang_speed_space rf qd (xi : ℝ) (yi : ℝ)).area *
        arctan2 rim_width |(xi : ℝ)|).getD i []).getD j 0 = _
  rw [list_getD_map_of_lt _ 0 [] heatmap_x_range i hi']
  show (heatmap_y_range.map fun yi : ℚ =>
      (get_ang_speed_space rf qd (heatmap_x_range.getD i 0 : ℝ) (yi : ℝ)).area *
        arctan2 rim_width |(heatmap_x_range.getD i 0 : ℝ)|).getD j 0 = _
  rw [list_getD_map_of_lt _ 0 0 heatmap_y_range j hj']

/-- Claim C9 witness: the cell value identity instantiated at the grid corner
i = 0, j = 0 with the zero kernels. -/
theorem generate_heatmap_cell_value_witness :
    (0 : ℕ) < 25 ∧ (0 : ℕ) < 6 ∧
    (((generate_heatmap (fun _ _ => 0) (fun _ _ _ => 0)).area_grid.getD 0 []).getD 0 0 =
      (get_ang_speed_space (fun _ _ => 0) (fun _ _ _ => 0)
          (heatmap_x_range.getD 0 0 : ℝ) (heatmap_y_range.getD 0 0 : ℝ)).area *
        arctan2 rim_width |(heatmap_x_range.getD 0 0 : ℝ)|) :=
  ⟨by decide, by decide,
    generate_heatmap_cell_value (fun _ _ => 0) (fun _ _ _ => 0) 0 0
      (by decide) (by decide)⟩

end ShotPlanner
